import Mathlib

/-!
Verification development for the Calc-XD repository (a calculator app that
disguises a private messenger behind a 4-digit unlock code).

The TypeScript/React-Native sources are shallowly embedded:

* `client/screens/CalculatorScreen.tsx` — the digit-stream interpreter
  (`evaluateExpression`, `checkSecretCode`, `handleNumberPress`,
  `handleOperatorPress`, `handleEqualsPress`, `handleClearPress`,
  `handleBackspacePress`) becomes a pure step function on `CalcState`
  emitting `AppEvent`s (calls to `unlock()` / `navigation.navigate`).
* `client/lib/storage.ts` — `AsyncStorage`/`SecureStore` become a `Store`
  record; each exported storage function becomes a pure function on it.
* `client/context/AppContext.tsx` — the context state becomes `AppState`;
  the exposed operations become pure functions on `Store × AppState`.
* `PairingScreen`'s `handleJoin` (validation + normalization in front of
  `joinWithCode`) is embedded as `handleJoin`.

The arithmetic evaluator in the source is
`Function("'use strict'; return (" + expr + ")")()`, i.e. strict-mode
JavaScript evaluation of the expression text.  The calculator keypad can
only produce texts over digits, '.', and the binary operators
`+ - * / %` (parentheses and unary minus are unreachable: the "()" button
is a no-op and an operator press on an empty expression returns early), so
the embedding implements exactly the strict-mode ECMAScript grammar for
that fragment: decimal literals (no legacy-octal-looking literals such as
"01", which are a strict-mode SyntaxError), MultiplicativeExpression
(`* / %`, left associative) binding tighter than AdditiveExpression
(`+ -`, left associative).  JavaScript doubles are modelled by exact
fractions extended with Infinity, -Infinity and NaN; double rounding is
not modelled — every concrete expression evaluated in a theorem below has
an exact double result, where the two semantics coincide.  Negative zero
cannot arise in this fragment (operands of `* / %` are literals, and the
additive combinations reachable here never produce -0), so it is not
modelled either.
-/

namespace CalcXD

/-- Exact numeric value carried as an unreduced fraction.  Every operation
below keeps `den` positive; values are compared by cross-multiplication,
so no gcd normalization is needed (this keeps all operations reducible by
the kernel, unlike `ℚ`). -/
structure Frac where
  num : ℤ
  den : ℤ
deriving DecidableEq, Repr

/-- Fraction with value `n`. -/
def Frac.ofNat (n : Nat) : Frac := ⟨n, 1⟩

/-- Exact addition. -/
def Frac.add (a b : Frac) : Frac := ⟨a.num * b.den + b.num * a.den, a.den * b.den⟩

/-- Exact negation. -/
def Frac.neg (a : Frac) : Frac := ⟨-a.num, a.den⟩

/-- Exact subtraction. -/
def Frac.sub (a b : Frac) : Frac := a.add b.neg

/-- Exact multiplication. -/
def Frac.mul (a b : Frac) : Frac := ⟨a.num * b.num, a.den * b.den⟩

/-- Exact division (callers guard against a zero divisor); the sign is
moved into the numerator to keep `den` positive. -/
def Frac.div (a b : Frac) : Frac :=
  if 0 ≤ b.num then ⟨a.num * b.den, a.den * b.num⟩
  else ⟨-(a.num * b.den), a.den * (-b.num)⟩

/-- Value-level zero test (valid because `den` is positive). -/
def Frac.isZero (a : Frac) : Bool := a.num = 0

/-- Value-level positivity test. -/
def Frac.isPos (a : Frac) : Bool := 0 < a.num

/-- Value-level negativity test. -/
def Frac.isNeg (a : Frac) : Bool := a.num < 0

/-- Absolute value. -/
def Frac.abs (a : Frac) : Frac := ⟨|a.num|, a.den⟩

/-- Floor of the exact value. -/
def Frac.floor (a : Frac) : ℤ := a.num.fdiv a.den

/-- Ceiling of the exact value. -/
def Frac.ceil (a : Frac) : ℤ := -((-a.num).fdiv a.den)

/-- Is the value an integer? -/
def Frac.isInt (a : Frac) : Bool := a.num % a.den = 0

/-- Model of a JavaScript number as produced by evaluating a calculator
expression: an exact finite value, or one of the non-finite values. -/
inductive JSNum where
  | num (q : Frac)
  | inf
  | negInf
  | nan
deriving DecidableEq, Repr

/-- JavaScript truncation toward zero, used by the `%` operator. -/
def jsTrunc (q : Frac) : ℤ :=
  if q.isNeg then q.ceil else q.floor

/-- JavaScript `+` on numbers. -/
def jsAdd : JSNum → JSNum → JSNum
  | JSNum.nan, _ => JSNum.nan
  | _, JSNum.nan => JSNum.nan
  | JSNum.num a, JSNum.num b => JSNum.num (a.add b)
  | JSNum.inf, JSNum.negInf => JSNum.nan
  | JSNum.negInf, JSNum.inf => JSNum.nan
  | JSNum.inf, _ => JSNum.inf
  | _, JSNum.inf => JSNum.inf
  | JSNum.negInf, _ => JSNum.negInf
  | _, JSNum.negInf => JSNum.negInf

/-- JavaScript unary negation on numbers. -/
def jsNeg : JSNum → JSNum
  | JSNum.nan => JSNum.nan
  | JSNum.inf => JSNum.negInf
  | JSNum.negInf => JSNum.inf
  | JSNum.num a => JSNum.num a.neg

/-- JavaScript `-` on numbers. -/
def jsSub (a b : JSNum) : JSNum := jsAdd a (jsNeg b)

/-- JavaScript `*` on numbers. -/
def jsMul : JSNum → JSNum → JSNum
  | JSNum.nan, _ => JSNum.nan
  | _, JSNum.nan => JSNum.nan
  | JSNum.num a, JSNum.num b => JSNum.num (a.mul b)
  | JSNum.num a, JSNum.inf =>
      if a.isZero then JSNum.nan else if a.isPos then JSNum.inf else JSNum.negInf
  | JSNum.num a, JSNum.negInf =>
      if a.isZero then JSNum.nan else if a.isPos then JSNum.negInf else JSNum.inf
  | JSNum.inf, JSNum.num b =>
      if b.isZero then JSNum.nan else if b.isPos then JSNum.inf else JSNum.negInf
  | JSNum.negInf, JSNum.num b =>
      if b.isZero then JSNum.nan else if b.isPos then JSNum.negInf else JSNum.inf
  | JSNum.inf, JSNum.inf => JSNum.inf
  | JSNum.inf, JSNum.negInf => JSNum.negInf
  | JSNum.negInf, JSNum.inf => JSNum.negInf
  | JSNum.negInf, JSNum.negInf => JSNum.inf

/-- JavaScript `/` on numbers; division of a nonzero finite value by
(positive) zero yields a signed infinity, `0/0` yields NaN. -/
def jsDiv : JSNum → JSNum → JSNum
  | JSNum.nan, _ => JSNum.nan
  | _, JSNum.nan => JSNum.nan
  | JSNum.num a, JSNum.num b =>
      if b.isZero then
        if a.isZero then JSNum.nan else if a.isPos then JSNum.inf else JSNum.negInf
      else JSNum.num (a.div b)
  | JSNum.num _, JSNum.inf => JSNum.num (Frac.ofNat 0)
  | JSNum.num _, JSNum.negInf => JSNum.num (Frac.ofNat 0)
  | JSNum.inf, JSNum.num b => if b.isNeg then JSNum.negInf else JSNum.inf
  | JSNum.negInf, JSNum.num b => if b.isNeg then JSNum.inf else JSNum.negInf
  | JSNum.inf, JSNum.inf => JSNum.nan
  | JSNum.inf, JSNum.negInf => JSNum.nan
  | JSNum.negInf, JSNum.inf => JSNum.nan
  | JSNum.negInf, JSNum.negInf => JSNum.nan

/-- JavaScript `%` (remainder, sign of the dividend): `a % 0` is NaN, a
finite value mod an infinity is the dividend itself. -/
def jsMod : JSNum → JSNum → JSNum
  | JSNum.nan, _ => JSNum.nan
  | _, JSNum.nan => JSNum.nan
  | JSNum.inf, _ => JSNum.nan
  | JSNum.negInf, _ => JSNum.nan
  | JSNum.num a, JSNum.inf => JSNum.num a
  | JSNum.num a, JSNum.negInf => JSNum.num a
  | JSNum.num a, JSNum.num b =>
      if b.isZero then JSNum.nan
      else JSNum.num (a.sub (b.mul ⟨jsTrunc (a.div b), 1⟩))

/-- Decimal digit test for the expression grammar. -/
def isDigitCh (c : Char) : Bool := ('0' ≤ c && c ≤ '9')

/-- Numeric value of a decimal digit character. -/
def digitValNat (c : Char) : Nat := c.toNat - Char.toNat '0'

/-- Value of a digit string read as a decimal integer. -/
def intValNat (ds : List Char) : Nat :=
  ds.foldl (fun a c => a * 10 + digitValNat c) 0

/-- Value of a digit string read as a decimal fraction (the part after the
decimal point). -/
def fracValFrac (ds : List Char) : Frac :=
  ⟨intValNat ds, (10 : ℤ) ^ ds.length⟩

/-- Strict-mode ECMAScript decimal literal: `0` or a nonzero-leading digit
string, optionally followed by `.` and fraction digits, or `.` followed by
at least one digit.  Leading-zero forms such as `01` are a SyntaxError in
strict mode and are rejected. -/
def parseNumber : List Char → Option (Frac × List Char)
  | [] => none
  | '.' :: rest =>
      let fds := rest.takeWhile (fun c => isDigitCh c)
      if fds.isEmpty then none
      else some (fracValFrac fds, rest.drop fds.length)
  | c :: rest =>
      if isDigitCh c then
        let ids := (c :: rest).takeWhile (fun d => isDigitCh d)
        if c = '0' && ids.length > 1 then none
        else
          let rest1 := (c :: rest).drop ids.length
          let iv : Frac := Frac.ofNat (intValNat ids)
          match rest1 with
          | '.' :: rest2 =>
              let fds := rest2.takeWhile (fun d => isDigitCh d)
              some (iv.add (fracValFrac fds), rest2.drop fds.length)
          | _ => some (iv, rest1)
      else none

/-- Multiplicative-level operator characters. -/
def isMulOp (c : Char) : Bool := c = '*' || c = '/' || c = '%'

/-- Additive-level operator characters. -/
def isAddOp (c : Char) : Bool := c = '+' || c = '-'

/-- Apply a multiplicative operator. -/
def applyMulOp (c : Char) (a b : JSNum) : JSNum :=
  if c = '*' then jsMul a b else if c = '/' then jsDiv a b else jsMod a b

/-- Apply an additive operator. -/
def applyAddOp (c : Char) (a b : JSNum) : JSNum :=
  if c = '+' then jsAdd a b else jsSub a b

/-- A factor of the expression grammar is a numeric literal. -/
def parseFactor (cs : List Char) : Option (JSNum × List Char) :=
  (parseNumber cs).map (fun p => (JSNum.num p.1, p.2))

/-- Left-associative chain of `* / %` applications (fuelled loop). -/
def termLoop : Nat → JSNum → List Char → Option (JSNum × List Char)
  | 0, _, _ => none
  | _ + 1, acc, [] => some (acc, [])
  | fuel + 1, acc, c :: rest =>
      if isMulOp c then
        match parseFactor rest with
        | some (v, rest1) => termLoop fuel (applyMulOp c acc v) rest1
        | none => none
      else some (acc, c :: rest)

/-- MultiplicativeExpression: a factor followed by a `termLoop` chain. -/
def parseTerm (fuel : Nat) (cs : List Char) : Option (JSNum × List Char) :=
  match parseFactor cs with
  | some (v, rest) => termLoop fuel v rest
  | none => none

/-- Left-associative chain of `+ -` applications (fuelled loop). -/
def exprLoop : Nat → JSNum → List Char → Option (JSNum × List Char)
  | 0, _, _ => none
  | _ + 1, acc, [] => some (acc, [])
  | fuel + 1, acc, c :: rest =>
      if isAddOp c then
        match parseTerm (fuel + 1) rest with
        | some (v, rest1) => exprLoop fuel (applyAddOp c acc v) rest1
        | none => none
      else some (acc, c :: rest)

/-- AdditiveExpression: a term followed by an `exprLoop` chain. -/
def parseExpr (fuel : Nat) (cs : List Char) : Option (JSNum × List Char) :=
  match parseTerm fuel cs with
  | some (v, rest) => exprLoop fuel v rest
  | none => none

/-- Evaluate an expression string as strict-mode JavaScript does on the
calculator-producible fragment; `none` models a thrown SyntaxError. -/
def jsEval (s : String) : Option JSNum :=
  match parseExpr (s.length + 1) s.data with
  | some (v, []) => some v
  | _ => none

/-- Fractional decimal digits of a value in `[0, 1)`, at most `fuel` many
(truncation).  Approximates JavaScript's shortest-round-trip `String`
rendering of a double; every theorem below evaluates it only where the two
coincide (short terminating expansions or not at all). -/
def fracDigits : Nat → Frac → List Char
  | 0, _ => []
  | fuel + 1, q =>
      if q.isZero then []
      else
        let q10 := q.mul (Frac.ofNat 10)
        let d : ℤ := q10.floor
        Nat.digitChar d.toNat :: fracDigits fuel (q10.sub ⟨d, 1⟩)

/-- Model of JavaScript `String(x)` for a finite number: integers render
as decimal integers, other values as sign, integer part, dot, fraction
digits. -/
def jsNumToString (q : Frac) : String :=
  if q.isInt then (q.num.fdiv q.den).repr
  else
    let sign := if q.isNeg then "-" else ""
    let aq := q.abs
    let ip : ℤ := aq.floor
    sign ++ ip.repr ++ "." ++ String.mk (fracDigits 17 (aq.sub ⟨ip, 1⟩))

/-- Left-pad a digit string with zeros to width `k`. -/
def padLeftZeros (s : String) (k : Nat) : String :=
  String.mk (List.replicate (k - s.length) '0') ++ s

/-- Model of JavaScript `x.toFixed(8)`: rounded to exactly 8 fractional
digits. -/
def jsToFixed8 (q : Frac) : String :=
  let sign := if q.isNeg then "-" else ""
  let n : ℤ := ((q.abs.mul (Frac.ofNat 100000000)).add ⟨1, 2⟩).floor
  let ip := n / 100000000
  let fp := (n % 100000000).toNat
  sign ++ ip.repr ++ "." ++ padLeftZeros (Nat.repr fp) 8

/-- Model of `.replace(/\.?0+$/, "")`: strip trailing zeros (at least one
must be present for the pattern to match) and a directly preceding dot. -/
def stripZeros (s : String) : String :=
  let r := s.data.reverse
  let z := r.takeWhile (fun c => c = '0')
  if z.isEmpty then s
  else
    let r1 := r.dropWhile (fun c => c = '0')
    let r2 := match r1 with
      | '.' :: rest => rest
      | other => other
    String.mk r2.reverse

/-- Model of `String.prototype.includes` for a single character. -/
def jsIncludes (s : String) (c : Char) : Bool := s.data.contains c

/-- Model of `resultStr.includes(".") && resultStr.split(".")[1].length > 8`
from `evaluateExpression`: the segment between the first dot and the next
dot (or the end) is longer than 8 characters. -/
def fracLenGt8 (s : String) : Bool :=
  match s.data.dropWhile (fun c => c ≠ '.') with
  | '.' :: rest => (rest.takeWhile (fun c => c ≠ '.')).length > 8
  | _ => false

/-- Model of the `.replace(/×/g, "*").replace(/÷/g, "/")` sanitization
step (the display operators are code points 215 and 247). -/
def sanitize (s : String) : String :=
  String.mk (s.data.map fun c =>
    if c = Char.ofNat 215 then '*' else if c = Char.ofNat 247 then '/' else c)

/-- Embedding of `evaluateExpression` from `CalculatorScreen.tsx`: empty
input yields "0"; a thrown SyntaxError (parse failure) is caught and
yields "0"; NaN and non-finite results yield "0"; a finite result is
rendered, with renderings longer than 8 fractional digits replaced by the
trailing-zero-stripped `toFixed(8)` form. -/
def evaluateExpression (expr : String) : String :=
  if expr = "" then "0"
  else
    match jsEval (sanitize expr) with
    | none => "0"
    | some JSNum.nan => "0"
    | some JSNum.inf => "0"
    | some JSNum.negInf => "0"
    | some (JSNum.num q) =>
        let resultStr := jsNumToString q
        if fracLenGt8 resultStr then stripZeros (jsToFixed8 q) else resultStr

/-- Local state of `CalculatorScreen`: the arithmetic expression buffer,
the displayed result, and the secret-code probe buffer. -/
structure CalcState where
  expression : String
  result : String
  secretCode : String
deriving DecidableEq, Repr

/-- Initial screen state (`useState("")`, `useState("0")`, `useState("")`). -/
def initialCalc : CalcState := { expression := "", result := "0", secretCode := "" }

/-- The context values `CalculatorScreen` reads (`useApp()`) and the
stored unlock code it compares against; they are constant during a run of
presses that stays on the calculator screen. -/
structure CalcEnv where
  isSetupComplete : Bool
  isPaired : Bool
  unlockCode : Option String
deriving DecidableEq, Repr

/-- Side effects a press emits toward the session controller and the
navigator: a call to `unlock()`, or a `navigation.navigate(...)`. -/
inductive AppEvent where
  | unlockEv
  | navChat
  | navPairing
  | navSetup (code : String)
deriving DecidableEq, Repr

/-- Embedding of `verifyUnlockCode` from `storage.ts`: strict equality of
the stored code (null when absent) against the probe. -/
def verifyUnlockCode (stored : Option String) (code : String) : Bool :=
  stored == some code

/-- Embedding of `checkSecretCode` from `CalculatorScreen.tsx`.  `cur` is
the probe-buffer value already written by the caller; a 4-character probe
always resolves (clearing the buffer), a correct one also emits `unlock()`
and a navigation to Chat or Pairing. -/
def checkSecretCode (env : CalcEnv) (cur code : String) : String × List AppEvent :=
  if code.length = 4 then
    if verifyUnlockCode env.unlockCode code then
      ("", [AppEvent.unlockEv,
            if env.isPaired then AppEvent.navChat else AppEvent.navPairing])
    else ("", [])
  else (cur, [])

/-- Model of `expression.lastIndexOf(c)`: -1 when absent. -/
def lastIndexOfCh (s : String) (c : Char) : Int :=
  match s.data.reverse.findIdx? (fun d => d = c) with
  | none => -1
  | some i => (s.length : Int) - 1 - (i : Int)

/-- The `Math.max` of the four `lastIndexOf` calls in `handleNumberPress`
(note: `%` is not among them). -/
def lastOperatorIndex (s : String) : Int :=
  max (max (lastIndexOfCh s '+') (lastIndexOfCh s '-'))
      (max (lastIndexOfCh s '*') (lastIndexOfCh s '/'))

/-- Model of `expression.slice(i)` for `i ≥ 0`. -/
def jsSliceFrom (s : String) (i : Int) : String :=
  String.mk (s.data.drop i.toNat)

/-- The decimal-point rejection test of `handleNumberPress`: the press is
"." and the text after the last `+ - * /` already contains a dot (guarded,
as in the source, by the whole expression containing a dot). -/
def decimalRejected (expression value : String) : Bool :=
  value == "." && jsIncludes expression '.' &&
    jsIncludes (jsSliceFrom expression (lastOperatorIndex expression + 1)) '.'

/-- The arithmetic tail of `handleNumberPress`: reject a duplicate decimal
point in the current segment, otherwise append the pressed value and
re-evaluate the displayed result. -/
def arithAppend (s : CalcState) (value : String) : CalcState :=
  if decimalRejected s.expression value then s
  else
    let newExpr := s.expression ++ value
    { s with expression := newExpr, result := evaluateExpression newExpr }

/-- Embedding of `handleNumberPress` from `CalculatorScreen.tsx`.  Before
setup, a probe buffer reaching 4 characters is consumed entirely as a
new-code proposal (navigate to Setup, early return).  After setup, the
probe is handed to `checkSecretCode` and the arithmetic update always
proceeds. -/
def handleNumberPress (env : CalcEnv) (s : CalcState) (value : String) :
    CalcState × List AppEvent :=
  if env.isSetupComplete = false then
    let newCode := s.secretCode ++ value
    if newCode.length = 4 then
      ({ s with secretCode := "" }, [AppEvent.navSetup newCode])
    else
      (arithAppend { s with secretCode := newCode } value, [])
  else
    let newCode := s.secretCode ++ value
    let r := checkSecretCode env newCode newCode
    (arithAppend { s with secretCode := r.1 } value, r.2)

/-- The `operators` array of `handleOperatorPress`. -/
def operatorsList : List Char := ['+', '-', '*', '/', '%']

/-- Embedding of `handleOperatorPress`: clear the probe buffer; on a
nonempty expression, replace a trailing operator or append the new one
(the displayed result is not re-evaluated). -/
def handleOperatorPress (s : CalcState) (op : String) : CalcState :=
  let s1 : CalcState := { s with secretCode := "" }
  if s1.expression = "" then s1
  else
    match s1.expression.data.getLast? with
    | some c =>
        if operatorsList.contains c then
          { s1 with expression := String.mk s1.expression.data.dropLast ++ op }
        else { s1 with expression := s1.expression ++ op }
    | none => { s1 with expression := s1.expression ++ op }

/-- Embedding of `handleEqualsPress`: clear the probe buffer; on a
nonempty expression, replace both buffers by the evaluated result. -/
def handleEqualsPress (s : CalcState) : CalcState :=
  let s1 : CalcState := { s with secretCode := "" }
  if s1.expression = "" then s1
  else
    let finalResult := evaluateExpression s1.expression
    { s1 with expression := finalResult, result := finalResult }

/-- Embedding of `handleClearPress`: reset everything. -/
def handleClearPress : CalcState := initialCalc

/-- Embedding of `handleBackspacePress`: clear the probe buffer; drop the
last expression character and re-evaluate (or display "0" when empty). -/
def handleBackspacePress (s : CalcState) : CalcState :=
  let s1 : CalcState := { s with secretCode := "" }
  if s1.expression.length > 0 then
    let newExpr := String.mk s1.expression.data.dropLast
    { s1 with expression := newExpr,
              result := if newExpr ≠ "" then evaluateExpression newExpr else "0" }
  else s1

/-- A keypad press, as dispatched by `handleButtonPress` (`fn` is the
"()" button, which does nothing). -/
inductive Press where
  | num (v : String)
  | op (v : String)
  | equals
  | clear
  | backspace
  | fn
deriving DecidableEq, Repr

/-- One keypad press: the new screen state and the emitted events. -/
def stepPress (env : CalcEnv) (s : CalcState) : Press → CalcState × List AppEvent
  | Press.num v => handleNumberPress env s v
  | Press.op v => (handleOperatorPress s v, [])
  | Press.equals => (handleEqualsPress s, [])
  | Press.clear => (handleClearPress, [])
  | Press.backspace => (handleBackspacePress s, [])
  | Press.fn => (s, [])

/-- Calculator screen state together with the observable consequences of
its emitted events: the context's `isUnlocked` flag and the log of
navigations performed. -/
structure UIState where
  screen : CalcState
  isUnlocked : Bool
  navLog : List AppEvent
deriving DecidableEq, Repr

/-- Apply one emitted event: `unlock()` sets `isUnlocked`; a navigation is
recorded in the log. -/
def uiApplyEvent (u : UIState) : AppEvent → UIState
  | AppEvent.unlockEv => { u with isUnlocked := true }
  | e => { u with navLog := u.navLog ++ [e] }

/-- One keypad press at the UI level. -/
def uiPress (env : CalcEnv) (u : UIState) (p : Press) : UIState :=
  let r := stepPress env u.screen p
  r.2.foldl uiApplyEvent { u with screen := r.1 }

/-- A whole press sequence. -/
def runPresses (env : CalcEnv) (u : UIState) (ps : List Press) : UIState :=
  ps.foldl (uiPress env) u

/-- Fresh calculator screen in a locked app. -/
def initialUI : UIState := { screen := initialCalc, isUnlocked := false, navLog := [] }

/-- Message delivery status (`"sent" | "delivered" | "read"`). -/
inductive MsgStatus where
  | sent
  | delivered
  | read
deriving DecidableEq, Repr

/-- The `Message` record of `storage.ts`. -/
structure Message where
  id : String
  text : String
  senderId : String
  timestamp : Nat
  status : MsgStatus
deriving DecidableEq, Repr

/-- The persisted key-value state behind `SecureStore` (unlock code,
device id) and `AsyncStorage` (the rest); `none` models an absent key. -/
structure Store where
  unlockCode : Option String
  deviceId : Option String
  pairingCode : Option String
  pairedWith : Option String
  messages : Option (List Message)
  setupFlag : Option Bool
deriving DecidableEq, Repr

/-- A store with no keys set (fresh install). -/
def emptyStore : Store :=
  { unlockCode := none, deviceId := none, pairingCode := none,
    pairedWith := none, messages := none, setupFlag := none }

/-- Model of `String.prototype.substring(a, b)` for `a ≤ b`: the
characters with indices in `[a, b)`, clamped to the string length. -/
def jsSubstring (s : String) (a b : Nat) : String :=
  String.mk ((s.data.take b).drop a)

/-- Model of `String.prototype.toUpperCase` (character-wise upper-casing;
adequate for the alphanumeric codes that occur here). -/
def jsToUpperCase (s : String) : String :=
  String.mk (s.data.map Char.toUpper)

namespace Storage

/-- Embedding of `getMessages`: absent key parses to `[]`. -/
def getMessages (st : Store) : List Message := st.messages.getD []

/-- Embedding of `addMessage`: read, push, save; returns the new list. -/
def addMessage (st : Store) (m : Message) : Store × List Message :=
  let ms := getMessages st ++ [m]
  ({ st with messages := some ms }, ms)

/-- Embedding of `unpair` from `storage.ts`: remove the paired-with id,
the pairing code and the message collection. -/
def unpair (st : Store) : Store :=
  { st with pairedWith := none, pairingCode := none, messages := none }

/-- Embedding of `generatePairingCode` from `storage.ts`.  The code is
`Math.random().toString(36).substring(2, 8).toUpperCase()`; the random
draw enters the model as `randStr`, the exact text that
`Math.random().toString(36)` produced (for example, the draw 0.5 renders
as "0.i" and the draw 0 renders as "0"). -/
def generatePairingCode (randStr : String) (st : Store) : String × Store :=
  let code := jsToUpperCase (jsSubstring randStr 2 8)
  (code, { st with pairingCode := some code })

/-- Embedding of `getDeviceId`: read the stored id, creating it from a
fresh UUID when absent. -/
def getDeviceId (uuid : String) (st : Store) : String × Store :=
  match st.deviceId with
  | some id => (id, st)
  | none => (uuid, { st with deviceId := some uuid })

end Storage

/-- The in-memory state of `AppContext` (never persisted). -/
structure AppState where
  isUnlocked : Bool
  isPaired : Bool
  isSetupComplete : Bool
  deviceId : Option String
  pairedWith : Option String
  messages : List Message
deriving DecidableEq, Repr

/-- The `useState` initial values of `AppProvider`. -/
def initialAppState : AppState :=
  { isUnlocked := false, isPaired := false, isSetupComplete := false,
    deviceId := none, pairedWith := none, messages := [] }

/-- React Native `AppStateStatus` values. -/
inductive AppStateStatus where
  | active
  | background
  | inactive
  | unknown
  | extensionState
deriving DecidableEq, Repr

/-- Embedding of `handleAppStateChange` from `AppContext.tsx`: leaving the
foreground ("background" or "inactive") forces `isUnlocked := false`; any
other signal changes nothing. -/
def handleAppStateChange (next : AppStateStatus) (a : AppState) : AppState :=
  if next == AppStateStatus.background || next == AppStateStatus.inactive then
    { a with isUnlocked := false }
  else a

/-- Embedding of `initializeApp`: load (or create) the device id, the
setup flag and the pairing link, and — only if paired — the messages;
`isUnlocked` starts false because it is never persisted. -/
def initializeApp (uuid : String) (st : Store) : Store × AppState :=
  let r := Storage.getDeviceId uuid st
  (r.2,
   { isUnlocked := false,
     isPaired := r.2.pairedWith.isSome,
     isSetupComplete := r.2.setupFlag.getD false,
     deviceId := some r.1,
     pairedWith := r.2.pairedWith,
     messages := if r.2.pairedWith.isSome then Storage.getMessages r.2 else [] })

/-- Embedding of the context's `unlock`. -/
def unlock (a : AppState) : AppState := { a with isUnlocked := true }

/-- Embedding of the context's `lock`. -/
def lock (a : AppState) : AppState := { a with isUnlocked := false }

/-- Embedding of the context's `setupComplete`: persist the unlock code
and the setup flag, mark setup complete in memory. -/
def setupCompleteOp (code : String) (st : Store) (a : AppState) : Store × AppState :=
  ({ st with unlockCode := some code, setupFlag := some true },
   { a with isSetupComplete := true })

/-- Embedding of the context's `joinWithCode`: persist the code as the
paired-with id, mark paired, and unconditionally return `true` (there is
no verification against a remote peer). -/
def joinWithCode (code : String) (st : Store) (a : AppState) :
    Store × AppState × Bool :=
  ({ st with pairedWith := some code },
   { a with isPaired := true, pairedWith := some code },
   true)

/-- Embedding of the context's `unpair` (`unpairDevice`). -/
def unpairDevice (st : Store) (a : AppState) : Store × AppState :=
  (Storage.unpair st,
   { a with isPaired := false, pairedWith := none, messages := [] })

/-- The message id `Date.now() + "-" + Math.random().toString(36).substr(2, 9)`;
`now` and `rnd` carry the clock reading and the random suffix. -/
def mkMessageId (now : Nat) (rnd : String) : String :=
  Nat.repr now ++ "-" ++ rnd

/-- Embedding of the context's `sendMessage`: a null device id returns
early; otherwise append a freshly built `sent` message and refresh the
in-memory list. -/
def sendMessage (text : String) (now : Nat) (rnd : String) (st : Store)
    (a : AppState) : Store × AppState :=
  match a.deviceId with
  | none => (st, a)
  | some d =>
      let m : Message :=
        { id := mkMessageId now rnd, text := text, senderId := d,
          timestamp := now, status := MsgStatus.sent }
      let r := Storage.addMessage st m
      (r.1, { a with messages := r.2 })

/-- Embedding of the context's `refreshMessages`. -/
def refreshMessages (st : Store) (a : AppState) : Store × AppState :=
  (st, { a with messages := Storage.getMessages st })

/-- Outcome of the pairing screen's join flow. -/
structure JoinResult where
  store : Store
  app : AppState
  accepted : Bool
  errorMsg : Option String
deriving DecidableEq, Repr

/-- Embedding of `handleJoin` from `PairingScreen`: codes shorter than 6
characters are rejected with a validation message and never reach the
store; otherwise the upper-cased code is handed to `joinWithCode`, which
always succeeds. -/
def handleJoin (inputCode : String) (st : Store) (a : AppState) : JoinResult :=
  if inputCode.length < 6 then
    { store := st, app := a, accepted := false,
      errorMsg := some "Please enter a valid 6-character code" }
  else
    let r := joinWithCode (jsToUpperCase inputCode) st a
    { store := r.1, app := r.2.1, accepted := r.2.2, errorMsg := none }

/-- The operations that can hit the session state (`AppContext`) while the
app runs, each carrying the environmental inputs (clock, randomness) it
consumes.  `unlockEv` is the `unlock()` call, emitted only on a verified
code match (see `checkSecretCode`); `restartEv` is a process restart,
which rebuilds the in-memory state from the store via `initializeApp`. -/
inductive SessionEvent where
  | appChange (s : AppStateStatus)
  | unlockEv
  | lockEv
  | setupEv (code : String)
  | genCodeEv (rand : String)
  | joinEv (code : String)
  | unpairEv
  | sendEv (text : String) (now : Nat) (rnd : String)
  | refreshEv
  | restartEv (uuid : String)
deriving DecidableEq, Repr

/-- One session-level transition. -/
def sessionStep (σ : Store × AppState) : SessionEvent → Store × AppState
  | SessionEvent.appChange s => (σ.1, handleAppStateChange s σ.2)
  | SessionEvent.unlockEv => (σ.1, unlock σ.2)
  | SessionEvent.lockEv => (σ.1, lock σ.2)
  | SessionEvent.setupEv code => setupCompleteOp code σ.1 σ.2
  | SessionEvent.genCodeEv rand => ((Storage.generatePairingCode rand σ.1).2, σ.2)
  | SessionEvent.joinEv code =>
      let r := joinWithCode code σ.1 σ.2
      (r.1, r.2.1)
  | SessionEvent.unpairEv => unpairDevice σ.1 σ.2
  | SessionEvent.sendEv t now rnd => sendMessage t now rnd σ.1 σ.2
  | SessionEvent.refreshEv => refreshMessages σ.1 σ.2
  | SessionEvent.restartEv uuid => initializeApp uuid σ.1

/-! ### Helper lemmas -/

/-- `arithAppend` never touches the probe buffer. -/
theorem arithAppend_secretCode (s : CalcState) (v : String) :
    (arithAppend s v).secretCode = s.secretCode := by
  unfold arithAppend
  split <;> rfl

/-- A character contained in a suffix of a list is contained in the list. -/
theorem contains_of_drop {l : List Char} {n : Nat} {c : Char}
    (h : (l.drop n).contains c = true) : l.contains c = true := by
  induction n generalizing l with
  | zero => simpa using h
  | succ n ih =>
      cases l with
      | nil => simp only [List.drop_nil] at h; exact h
      | cons x xs =>
          simp only [List.drop_succ_cons] at h
          have hx := ih h
          simp only [List.contains_cons, hx, Bool.or_true]

/-- The redundant outer `expression.includes(".")` guard of the source can
be dropped: rejection of a decimal point is equivalent to the pressed
value being "." while the segment after the last `+ - * /` already
contains a dot. -/
theorem decimalRejected_iff (e v : String) :
    decimalRejected e v = true ↔
      (v = "." ∧ jsIncludes (jsSliceFrom e (lastOperatorIndex e + 1)) '.' = true) := by
  simp only [decimalRejected, Bool.and_eq_true, beq_iff_eq]
  constructor
  · rintro ⟨⟨h1, _⟩, h3⟩
    exact ⟨h1, h3⟩
  · rintro ⟨h1, h3⟩
    refine ⟨⟨h1, ?_⟩, h3⟩
    exact contains_of_drop h3

/-- Expression effect of the arithmetic tail of a digit press. -/
theorem arithAppend_expression (s : CalcState) (v : String) :
    (arithAppend s v).expression =
      if v = "." ∧ jsIncludes (jsSliceFrom s.expression (lastOperatorIndex s.expression + 1)) '.' = true
      then s.expression else s.expression ++ v := by
  unfold arithAppend
  by_cases h : decimalRejected s.expression v = true
  · rw [if_pos h, if_pos ((decimalRejected_iff s.expression v).mp h)]
  · rw [if_neg h, if_neg (fun hc => h ((decimalRejected_iff s.expression v).mpr hc))]

/-- Result effect of the arithmetic tail of a digit press. -/
theorem arithAppend_result (s : CalcState) (v : String) :
    (arithAppend s v).result =
      if v = "." ∧ jsIncludes (jsSliceFrom s.expression (lastOperatorIndex s.expression + 1)) '.' = true
      then s.result else evaluateExpression (s.expression ++ v) := by
  unfold arithAppend
  by_cases h : decimalRejected s.expression v = true
  · rw [if_pos h, if_pos ((decimalRejected_iff s.expression v).mp h)]
  · rw [if_neg h, if_neg (fun hc => h ((decimalRejected_iff s.expression v).mpr hc))]

/-- No session event other than `unlockEv` can set `isUnlocked`. -/
theorem sessionStep_keeps_locked (σ : Store × AppState) (e : SessionEvent)
    (hne : e ≠ SessionEvent.unlockEv) (h : σ.2.isUnlocked = false) :
    (sessionStep σ e).2.isUnlocked = false := by
  cases e with
  | appChange s =>
      simp only [sessionStep, handleAppStateChange]
      split <;> simp [h]
  | unlockEv => exact absurd rfl hne
  | lockEv => simp [sessionStep, lock]
  | setupEv code => simp [sessionStep, setupCompleteOp, h]
  | genCodeEv rand => simp [sessionStep, h]
  | joinEv code => simp [sessionStep, joinWithCode, h]
  | unpairEv => simp [sessionStep, unpairDevice, h]
  | sendEv t now rnd =>
      cases hd : σ.2.deviceId <;> simp [sessionStep, sendMessage, hd, h]
  | refreshEv => simp [sessionStep, refreshMessages, h]
  | restartEv uuid => simp [sessionStep, initializeApp]

/-- A locked session stays locked under any run of non-unlock events. -/
theorem foldl_keeps_locked (es : List SessionEvent) (σ : Store × AppState)
    (h : σ.2.isUnlocked = false) (hn : ∀ e ∈ es, e ≠ SessionEvent.unlockEv) :
    (es.foldl sessionStep σ).2.isUnlocked = false := by
  induction es generalizing σ with
  | nil => simpa using h
  | cons e es ih =>
      simp only [List.foldl_cons]
      exact ih (sessionStep σ e)
        (sessionStep_keeps_locked σ e (hn e (by simp)) h)
        (fun x hx => hn x (by simp [hx]))

/-! ### Claim C1 -/

/-- Environment shared by the probe scenarios: setup complete, paired,
stored unlock code "4821". -/
def env4821 : CalcEnv :=
  { isSetupComplete := true, isPaired := true, unlockCode := some "4821" }

/-- Claim C1 as stated is false on the code: with stored code "4821", the
digit-press sequence 0,4,8,2,1 ends with its last four digit presses
(uninterrupted by any operator, equals, clear or backspace press) spelling
"4821", the stored code, yet no unlock fires and no navigation happens —
the probe buffer resolves in aligned chunks of four (the press of 2
resolves and clears the mismatching probe "0482", so the matching window
4,8,2,1 straddles a buffer reset). -/
theorem c1_counterexample :
    ("4" : String) ++ "8" ++ "2" ++ "1" = "4821"
    ∧ env4821.unlockCode = some "4821"
    ∧ (runPresses env4821 initialUI
        [Press.num ("0"), Press.num ("4"), Press.num ("8"),
         Press.num ("2"), Press.num ("1")]).isUnlocked = false
    ∧ (runPresses env4821 initialUI
        [Press.num ("0"), Press.num ("4"), Press.num ("8"),
         Press.num ("2"), Press.num ("1")]).navLog = [] := by
  decide

/-- Claim C1 (amended): after setup, whenever the probe buffer extended by
the pressed digit reaches exactly 4 characters equal to the stored unlock
code, that press fires the unlock transition exactly once (`isUnlocked`
becomes true, a single `unlock()` event is emitted) and the probe buffer
is empty immediately after the match resolves. -/
theorem c1_amended (env : CalcEnv) (u : UIState) (v : String)
    (hsetup : env.isSetupComplete = true)
    (hlen : (u.screen.secretCode ++ v).length = 4)
    (hmatch : env.unlockCode = some (u.screen.secretCode ++ v)) :
    (uiPress env u (Press.num v)).isUnlocked = true
    ∧ (uiPress env u (Press.num v)).screen.secretCode = ""
    ∧ (stepPress env u.screen (Press.num v)).2.count AppEvent.unlockEv = 1 := by
  have hv : verifyUnlockCode env.unlockCode (u.screen.secretCode ++ v) = true := by
    simp [verifyUnlockCode, hmatch]
  cases hp : env.isPaired <;>
    refine ⟨?_, ?_, ?_⟩ <;>
      simp [uiPress, stepPress, handleNumberPress, hsetup, checkSecretCode, hlen, hv, hp,
            uiApplyEvent, arithAppend_secretCode]

/-- Witness for C1 (amended), realizing the spec scenario: code "4821"
stored, probes "1234" then "4821"; the eighth press unlocks. -/
theorem c1_witness :
    (uiPress env4821
        (runPresses env4821 initialUI
          [Press.num ("1"), Press.num ("2"), Press.num ("3"), Press.num ("4"),
           Press.num ("4"), Press.num ("8"), Press.num ("2")])
        (Press.num ("1"))).isUnlocked = true :=
  (c1_amended env4821
      (runPresses env4821 initialUI
        [Press.num ("1"), Press.num ("2"), Press.num ("3"), Press.num ("4"),
         Press.num ("4"), Press.num ("8"), Press.num ("2")])
      ("1") rfl (by decide) (by decide)).1

/-! ### Claim C2 -/

/-- Claim C2: after setup, a 4-character probe that does not match the
stored code resolves silently: no event at all is emitted (so `isUnlocked`
and the navigation log are unchanged — in particular `isUnlocked` stays
false when it was false, and no error can be surfaced because the press
has no effect channel besides its events), the probe buffer is cleared,
and the expression and result change exactly as an ordinary arithmetic
append would change them. -/
theorem c2_wrong_probe_silent (env : CalcEnv) (u : UIState) (v : String)
    (hsetup : env.isSetupComplete = true)
    (hlen : (u.screen.secretCode ++ v).length = 4)
    (hmis : verifyUnlockCode env.unlockCode (u.screen.secretCode ++ v) = false) :
    (uiPress env u (Press.num v)).isUnlocked = u.isUnlocked
    ∧ (uiPress env u (Press.num v)).navLog = u.navLog
    ∧ (uiPress env u (Press.num v)).screen.secretCode = ""
    ∧ (stepPress env u.screen (Press.num v)).2 = []
    ∧ (uiPress env u (Press.num v)).screen.expression
        = (arithAppend { u.screen with secretCode := "" } v).expression
    ∧ (uiPress env u (Press.num v)).screen.result
        = (arithAppend { u.screen with secretCode := "" } v).result := by
  refine ⟨?_, ?_, ?_, ?_, ?_, ?_⟩ <;>
    simp [uiPress, stepPress, handleNumberPress, hsetup, checkSecretCode, hlen, hmis,
          arithAppend_secretCode]

/-- Witness for C2: stored code "4821", wrong probe "1234" from a fresh
screen. -/
theorem c2_witness :
    (uiPress env4821
        (runPresses env4821 initialUI
          [Press.num ("1"), Press.num ("2"), Press.num ("3")])
        (Press.num ("4"))).isUnlocked
      = (runPresses env4821 initialUI
          [Press.num ("1"), Press.num ("2"), Press.num ("3")]).isUnlocked :=
  (c2_wrong_probe_silent env4821
    (runPresses env4821 initialUI
      [Press.num ("1"), Press.num ("2"), Press.num ("3")])
    ("4") rfl (by decide) (by decide)).1

/-! ### Claim C3 -/

/-- Claim C3: a lifecycle signal reporting "background" or "inactive"
forces `isUnlocked := false` regardless of its prior value; and after a
background transition, any run of session events that contains no
`unlock()` (i.e. no fresh code match) leaves `isUnlocked` false — in
particular `isUnlocked` is never persisted, so even a process restart
(`restartEv`, which rebuilds the in-memory state from the store) starts
locked. -/
theorem c3_autolock :
    (∀ (a : AppState) (next : AppStateStatus),
        (next = AppStateStatus.background ∨ next = AppStateStatus.inactive) →
        (handleAppStateChange next a).isUnlocked = false)
    ∧ (∀ (σ : Store × AppState) (es : List SessionEvent),
        (∀ e ∈ es, e ≠ SessionEvent.unlockEv) →
        (es.foldl sessionStep
            (sessionStep σ (SessionEvent.appChange AppStateStatus.background))).2.isUnlocked
          = false) := by
  constructor
  · intro a next h
    rcases h with h | h <;> subst h <;> simp [handleAppStateChange]
  · intro σ es hn
    refine foldl_keeps_locked es _ ?_ hn
    simp [sessionStep, handleAppStateChange]

/-- Witness for C3: backgrounding an unlocked session locks it, and a
subsequent restart plus refresh leaves it locked. -/
theorem c3_witness :
    (handleAppStateChange AppStateStatus.inactive (unlock initialAppState)).isUnlocked = false
    ∧ ([SessionEvent.restartEv ("uuid-1"), SessionEvent.refreshEv].foldl sessionStep
        (sessionStep (emptyStore, unlock initialAppState)
          (SessionEvent.appChange AppStateStatus.background))).2.isUnlocked = false :=
  ⟨c3_autolock.1 (unlock initialAppState) AppStateStatus.inactive (Or.inr rfl),
   c3_autolock.2 (emptyStore, unlock initialAppState)
     [SessionEvent.restartEv ("uuid-1"), SessionEvent.refreshEv] (by simp)⟩

/-! ### Claim C4 -/

/-- Environment for the C4 counterexample: setup not yet complete. -/
def c4Env : CalcEnv :=
  { isSetupComplete := false, isPaired := false, unlockCode := none }

/-- Claim C4 as stated is false on the code: before setup, the digit press
that completes the 4-character new-code proposal is consumed entirely by
the proposal (early return) — after pressing 1,2,3,4 the expression buffer
holds "123", not "1234", even though "4" is not a decimal point, and the
press navigated to the Setup screen instead. -/
theorem c4_counterexample :
    (runPresses c4Env initialUI
        [Press.num ("1"), Press.num ("2"), Press.num ("3"), Press.num ("4")]).screen.expression
      = "123"
    ∧ (runPresses c4Env initialUI
        [Press.num ("1"), Press.num ("2"), Press.num ("3"), Press.num ("4")]).navLog
      = [AppEvent.navSetup ("1234")]
    ∧ ("4" : String) ≠ "." := by
  decide

/-- Claim C4 (amended): a digit press appends the pressed value to the
expression buffer and re-evaluates the displayed result, except that
(a) before setup, the press completing a 4-character code proposal is
consumed purely as the proposal and leaves expression and result
untouched, and (b) a "." press is rejected for arithmetic purposes when
the expression text after the last occurrence of `+ - * /` (the remainder
operator `%` is not treated as a separator) already contains a decimal
point. -/
theorem c4_amended (env : CalcEnv) (s : CalcState) (v : String) :
    (handleNumberPress env s v).1.expression =
      (if env.isSetupComplete = false ∧ (s.secretCode ++ v).length = 4 then s.expression
       else if v = "." ∧ jsIncludes (jsSliceFrom s.expression (lastOperatorIndex s.expression + 1)) '.' = true
       then s.expression
       else s.expression ++ v)
    ∧ (handleNumberPress env s v).1.result =
      (if env.isSetupComplete = false ∧ (s.secretCode ++ v).length = 4 then s.result
       else if v = "." ∧ jsIncludes (jsSliceFrom s.expression (lastOperatorIndex s.expression + 1)) '.' = true
       then s.result
       else evaluateExpression (s.expression ++ v)) := by
  by_cases hs : env.isSetupComplete = false
  · by_cases hl : (s.secretCode ++ v).length = 4
    · simp [handleNumberPress, hs, hl]
    · have hl2 : ¬ s.secretCode.length + v.length = 4 := by
        simpa [String.length_append] using hl
      simp [handleNumberPress, hs, hl2, arithAppend_expression, arithAppend_result]
  · simp [handleNumberPress, hs, arithAppend_expression, arithAppend_result]

/-! ### Claim C5 -/

/-- Claim C5: the join flow upper-cases the supplied code and requires
length at least 6 before accepting; a shorter code is rejected with a
validation message and leaves both the store and the in-memory state
untouched, while every accepted code is persisted (normalized) as the
pairing link, sets `isPaired`, and reports success. -/
theorem c5_join :
    (∀ (code : String) (st : Store) (a : AppState), code.length < 6 →
        (handleJoin code st a).accepted = false
        ∧ (handleJoin code st a).store = st
        ∧ (handleJoin code st a).app = a)
    ∧ (∀ (code : String) (st : Store) (a : AppState), 6 ≤ code.length →
        (handleJoin code st a).accepted = true
        ∧ (handleJoin code st a).store.pairedWith = some (jsToUpperCase code)
        ∧ (handleJoin code st a).app.isPaired = true
        ∧ (handleJoin code st a).app.pairedWith = some (jsToUpperCase code)
        ∧ (handleJoin code st a).errorMsg = none) := by
  constructor
  · intro code st a h
    simp [handleJoin, h]
  · intro code st a h
    have h2 : ¬ code.length < 6 := by omega
    simp [handleJoin, h2, joinWithCode]

/-- Witness for C5: "abc123" (length 6) is accepted and stored as
"ABC123"; "abc" (length 3) is rejected. -/
theorem c5_witness :
    ((handleJoin ("abc123") emptyStore initialAppState).store.pairedWith = some ("ABC123"))
    ∧ (handleJoin ("abc") emptyStore initialAppState).accepted = false :=
  ⟨by
    have h := (c5_join.2 ("abc123") emptyStore initialAppState (by decide)).2.1
    simpa using h,
   (c5_join.1 ("abc") emptyStore initialAppState (by decide)).1⟩

/-! ### Claim C6 -/

/-- Claim C6 is a code bug: `Math.random().toString(36).substring(2, 8)`
does not always have 6 characters.  The producible draw 0.5 renders as
"0.i", giving the 1-character pairing code "I" (persisted as such), and
the draw 0 renders as "0", giving the empty code — contradicting the
repository's own "6-character pairing code" contract (README, spec §4.4,
and the join screen's length-≥-6 validation, which would reject such a
code). -/
theorem c6_short_code :
    (Storage.generatePairingCode ("0.i") emptyStore).1 = "I"
    ∧ ((Storage.generatePairingCode ("0.i") emptyStore).1.length = 6 → False)
    ∧ (Storage.generatePairingCode ("0.i") emptyStore).2.pairingCode = some "I"
    ∧ (Storage.generatePairingCode ("0") emptyStore).1 = "" := by
  decide

/-! ### Claim C7 -/

/-- Claim C7: from any state, `unpair()` removes the pairing link, the
pairing code and the whole message collection from the store, clears
`isPaired`, `pairedWith` and the in-memory messages, and a subsequent
`refreshMessages()` yields the empty collection. -/
theorem c7_unpair_clears (st : Store) (a : AppState) :
    (unpairDevice st a).1.pairedWith = none
    ∧ (unpairDevice st a).1.pairingCode = none
    ∧ (unpairDevice st a).1.messages = none
    ∧ (unpairDevice st a).2.isPaired = false
    ∧ (unpairDevice st a).2.pairedWith = none
    ∧ (unpairDevice st a).2.messages = []
    ∧ (refreshMessages (unpairDevice st a).1 (unpairDevice st a).2).2.messages = [] := by
  simp [unpairDevice, Storage.unpair, refreshMessages, Storage.getMessages]

/-! ### Claim C8 -/

/-- Claim C8: with a non-null device id, `sendMessage(t)` followed by
`refreshMessages()` yields exactly the prior stored collection extended by
one message at the end whose text is `t`, whose sender is the device id,
whose timestamp is the send-time clock reading, and whose status is
`sent`; the store is updated to the same collection. -/
theorem c8_send_roundtrip (st : Store) (a : AppState) (d t : String)
    (now : Nat) (rnd : String) (h : a.deviceId = some d) :
    (refreshMessages (sendMessage t now rnd st a).1 (sendMessage t now rnd st a).2).2.messages
      = Storage.getMessages st
        ++ [{ id := mkMessageId now rnd, text := t, senderId := d,
              timestamp := now, status := MsgStatus.sent }]
    ∧ (sendMessage t now rnd st a).1.messages
      = some (Storage.getMessages st
          ++ [{ id := mkMessageId now rnd, text := t, senderId := d,
                timestamp := now, status := MsgStatus.sent }]) := by
  simp [sendMessage, h, Storage.addMessage, refreshMessages, Storage.getMessages]

/-- Witness for C8: sending "hi" from a fresh paired state. -/
theorem c8_witness :
    (refreshMessages
        (sendMessage ("hi") 1000 ("r1") emptyStore
          { initialAppState with deviceId := some ("dev-1") }).1
        (sendMessage ("hi") 1000 ("r1") emptyStore
          { initialAppState with deviceId := some ("dev-1") }).2).2.messages
      = Storage.getMessages emptyStore
        ++ [{ id := mkMessageId 1000 ("r1"), text := "hi", senderId := "dev-1",
              timestamp := 1000, status := MsgStatus.sent }] :=
  (c8_send_roundtrip emptyStore { initialAppState with deviceId := some ("dev-1") }
    ("dev-1") ("hi") 1000 ("r1") rfl).1

/-! ### Claim C9 -/

/-- Claim C9: whenever evaluating the expression throws (parse failure) or
produces NaN or a non-finite value — which is what a division by zero
yields in this operator fragment — `evaluateExpression` returns the
sentinel "0"; in particular "5/0" evaluates to Infinity and is collapsed
to "0". -/
theorem c9_sentinel :
    (∀ e : String,
        (jsEval (sanitize e) = none ∨ jsEval (sanitize e) = some JSNum.nan
          ∨ jsEval (sanitize e) = some JSNum.inf
          ∨ jsEval (sanitize e) = some JSNum.negInf) →
        evaluateExpression e = "0")
    ∧ evaluateExpression ("5/0") = "0"
    ∧ jsEval ("5/0") = some JSNum.inf := by
  refine ⟨?_, by decide, by decide⟩
  intro e h
  by_cases he : e = ""
  · simp [evaluateExpression, he]
  · rcases h with h | h | h | h <;> simp [evaluateExpression, he, h]

/-- Witness for C9: "0%0" evaluates to NaN and is collapsed to "0". -/
theorem c9_witness : evaluateExpression ("0%0") = "0" :=
  c9_sentinel.1 ("0%0") (Or.inr (Or.inl (by decide)))

/-! ### Claim C10 -/

/-- Claim C10: the evaluator is the pure function `evaluateExpression` of
the expression string, and it applies standard operator precedence —
`* / %` bind tighter than `+ -`, each level associating left-to-right —
not strict left-to-right evaluation: for all single digits a, b, c the
string "a+b*c" evaluates to a + (b*c), and "12+8*2" yields "28" (strict
left-to-right would give "40"), resolving the spec's open precedence
question. -/
theorem c10_precedence :
    (∀ a b c : Fin 10,
        evaluateExpression
            (String.mk [Nat.digitChar a.1, '+', Nat.digitChar b.1, '*', Nat.digitChar c.1])
          = Nat.repr (a.1 + b.1 * c.1))
    ∧ evaluateExpression ("12+8*2") = "28"
    ∧ evaluateExpression ("100-10*2") = "80"
    ∧ evaluateExpression ("7-2-3") = "2"
    ∧ evaluateExpression ("20/2*5") = "50"
    ∧ evaluateExpression ("10%3*2") = "2"
    ∧ evaluateExpression ("12/4/3") = "1" := by
  decide

end CalcXD
